import Mathlib

/-!
Shallow embedding of the Cosm_Backend space-information pipeline
(src/space_scraper.py and src/api.py) and proofs of the frozen claims
about it.

The Python code mixes pure computation (query analysis, relevance
scoring, aggregation, deduplication, fallback lookup) with network I/O
(the nine scraper methods) and NLTK calls (tokenization, stop words,
lemmatization).  The pure parts are translated directly; the external
parts are parameters:

* each scraper method is abstracted by a `ScraperEnv` assigning to a
  scraper name the outcome of calling it (a list of article dicts, or
  an exception, which `get_space_info` catches per scraper);
* the NLTK-backed pieces of `process_nlp` (tokenizer, stop-word set,
  lemmatizer) are an `NlpEnv` of oracles; the rest of `process_nlp`
  is translated verbatim;
* the top-level `try`/`except` of `get_space_info` is modelled by an
  `Except Unit QueryInfo` argument standing for the outcome of the
  `process_nlp` call, the one fallible step before scraping begins.

Machine integers do not overflow here (scores are small Python ints),
so relevance is `Int` and counts are `Nat`.
-/

/-! ### Python string primitives, on explicit character lists -/

/-- `listIsPref needle hay` : `needle` is a leading segment of `hay`
(helper for Python substring containment). -/
def listIsPref : List Char → List Char → Bool
  | [], _ => true
  | _ :: _, [] => false
  | a :: as, b :: bs => a == b && listIsPref as bs

/-- `listContains hay needle` : Python `needle in hay` on character
lists (the empty needle is contained in everything, as in Python). -/
def listContains : List Char → List Char → Bool
  | [], needle => listIsPref needle []
  | c :: t, needle => listIsPref needle (c :: t) || listContains t needle

/-- Python `needle in hay` for strings (substring containment). -/
def strIn (needle hay : String) : Bool :=
  listContains hay.data needle.data

/-- Python `s.lower()` (ASCII case folding, structural so that it
evaluates inside the kernel). -/
def strLower (s : String) : String :=
  ⟨s.data.map Char.toLower⟩

/-- Python `s.isalpha()` : non-empty and every character alphabetic. -/
def pyIsAlpha (s : String) : Bool :=
  !s.data.isEmpty && s.data.all Char.isAlpha

/-- Python `not s.strip()` : the string is empty or whitespace-only. -/
def pyStripIsEmpty (s : String) : Bool :=
  s.data.all Char.isWhitespace

/-- Helper for Python `s.split()` : accumulate the current word
(reversed) while scanning. -/
def splitWsAux : List Char → List Char → List String
  | [], acc => if acc.isEmpty then [] else [⟨acc.reverse⟩]
  | c :: rest, acc =>
    if c.isWhitespace then
      if acc.isEmpty then splitWsAux rest [] else ⟨acc.reverse⟩ :: splitWsAux rest []
    else splitWsAux rest (c :: acc)

/-- Python `s.split()` with no argument: split on whitespace runs,
dropping empty pieces. -/
def pySplitWs (s : String) : List String :=
  splitWsAux s.data []

/-! ### Data model

The article/result dicts of `space_scraper.py` and the response dict of
`get_space_info`.  The error path of `get_space_info` returns a dict
without the `sources_info` key, so that field is an `Option`: `some`
mirrors the key being present, `none` mirrors its absence. -/

/-- A result dict as produced by the scrapers, the fallback knowledge
base, and the error path: title, link, description, source, relevance. -/
structure Article where
  title : String
  link : String
  description : String
  source : String
  relevance : Int
  deriving Repr, DecidableEq

/-- The dict returned by `process_nlp`. -/
structure QueryInfo where
  processed_query : String
  original_query : String
  intent : String
  keywords : List String
  deriving Repr, DecidableEq

/-- The `sources_info` dict assembled by `get_space_info`.  The
`result_counts` dict is an insertion-ordered association list. -/
structure SourcesInfo where
  sources_queried : List String
  sources_with_results : List String
  result_counts : List (String × Nat)
  deriving Repr, DecidableEq

/-- The dict returned by `get_space_info`.  `sources_info = none`
mirrors the error-path dict, which carries no `sources_info` key. -/
structure Response where
  query_info : QueryInfo
  results : List Article
  total_found : Nat
  sources_info : Option SourcesInfo
  deriving Repr, DecidableEq

/-! ### Query analysis (`process_nlp`, space_scraper.py lines 121-162) -/

/-- The `space_keywords` dict of `process_nlp`, in insertion order
(Python dicts iterate in insertion order). -/
def space_keywords : List (String × List String) := [
  ("nasa", ["nasa", "space", "mission", "rocket", "astronaut"]),
  ("mars", ["mars", "red", "planet", "rover", "perseverance", "curiosity"]),
  ("moon", ["moon", "lunar", "apollo", "artemis"]),
  ("iss", ["iss", "international", "space", "station"]),
  ("spacex", ["spacex", "falcon", "dragon", "elon", "musk"]),
  ("satellite", ["satellite", "orbit", "gps"]),
  ("solar", ["solar", "sun", "system", "planet"]),
  ("asteroid", ["asteroid", "meteor", "comet"]),
  ("hubble", ["hubble", "telescope", "image", "webb", "james"]),
  ("launch", ["launch", "rocket", "mission"]),
  ("galaxy", ["galaxy", "milky", "way", "star"]),
  ("universe", ["universe", "cosmos", "big", "bang", "black", "hole", "quasar"])]

/-- The intent-classification loop of `process_nlp`: walk the category
table in order, stopping (`break`) at the first category one of whose
trigger keywords is an element of the lemmatized keyword list; default
`"general"`. -/
def intentLoop : List (String × List String) → List String → String
  | [], _ => "general"
  | (category, kws) :: rest, lemmatized =>
    if kws.any (fun keyword => lemmatized.contains keyword) then category
    else intentLoop rest lemmatized

/-- The NLTK-backed collaborators of `process_nlp`: the tokenizer
(`simple_tokenize`), the WordNet lemmatizer, and the English stop-word
set.  They are external data/libraries, so they are oracles here. -/
structure NlpEnv where
  tokenize : String → List String
  lemmatize : String → String
  is_stop : String → Bool

/-- `process_nlp` (space_scraper.py lines 121-162): lowercase and
tokenize, drop stop words and non-alphabetic tokens, lemmatize, then
classify intent with the first-match loop over `space_keywords`. -/
def process_nlp (env : NlpEnv) (query : String) : QueryInfo :=
  let tokens := env.tokenize (strLower query)
  let filtered_tokens := tokens.filter (fun word => pyIsAlpha word && !env.is_stop word)
  let lemmatized := filtered_tokens.map env.lemmatize
  { processed_query := String.intercalate " " lemmatized,
    original_query := query,
    intent := intentLoop space_keywords lemmatized,
    keywords := lemmatized }

/-! ### Relevance scoring (`calculate_relevance`, lines 1146-1153) -/

/-- `calculate_relevance`: lowercase the text, then for each keyword
add 1 if the keyword (as given, not lowercased) occurs in the lowered
text. -/
def calculate_relevance (text : String) (keywords : List String) : Nat :=
  let text_lower := strLower text
  keywords.foldl (fun score keyword => if strIn keyword text_lower then score + 1 else score) 0

/-! ### Fallback knowledge base (`get_fallback_results`, lines 1270-1344) -/

/-- One entry of the static `fallback_data` dict. -/
structure FbEntry where
  title : String
  description : String
  link : String
  source : String
  deriving Repr, DecidableEq

/-- The `fallback_data` dict of `get_fallback_results`, in insertion
order. -/
def fallback_data : List (String × FbEntry) := [
  ("mars",
   { title := "Mars - The Red Planet",
     description := "Mars is the fourth planet from the Sun and is known as the Red Planet due to iron oxide on its surface. NASA has sent multiple rovers including Perseverance and Curiosity to explore Mars.",
     link := "https://mars.nasa.gov/",
     source := "Static Knowledge" }),
  ("moon",
   { title := "Earth\x27s Moon",
     description := "The Moon is Earth\x27s only natural satellite. NASA\x27s Apollo missions landed humans on the Moon, and the Artemis program aims to return astronauts to the lunar surface.",
     link := "https://moon.nasa.gov/",
     source := "Static Knowledge" }),
  ("black hole",
   { title := "Black Holes",
     description := "Black holes are regions of spacetime where gravity is so strong that nothing can escape. The Event Horizon Telescope captured the first image of a black hole in 2019.",
     link := "https://www.nasa.gov/audience/forstudents/k-4/stories/nasa-knows/what-is-a-black-hole-k4.html",
     source := "Static Knowledge" }),
  ("spacex",
   { title := "SpaceX",
     description := "SpaceX is a private aerospace company founded by Elon Musk. They develop reusable rockets and spacecraft, including the Falcon 9 rocket and Dragon capsule.",
     link := "https://www.spacex.com/",
     source := "Static Knowledge" }),
  ("iss",
   { title := "International Space Station",
     description := "The ISS is a space station in low Earth orbit where astronauts conduct scientific research. It has been continuously occupied since 2000.",
     link := "https://www.nasa.gov/mission_pages/station/main/index.html",
     source := "Static Knowledge" }),
  ("hubble",
   { title := "Hubble Space Telescope",
     description := "The Hubble Space Telescope has been observing the universe since 1990, providing stunning images and scientific discoveries about distant galaxies, nebulae, and planets.",
     link := "https://hubblesite.org/",
     source := "Static Knowledge" }),
  ("james webb",
   { title := "James Webb Space Telescope",
     description := "The James Webb Space Telescope is the most powerful space telescope ever built, designed to observe the universe in infrared light and study the formation of the first galaxies.",
     link := "https://webb.nasa.gov/",
     source := "Static Knowledge" })]

/-- The matching test of `get_fallback_results`, line 1325:
`key in query or intent in key or any(word in key for word in
query_info['keywords'])`, where `query` is the lowercased original
query.  Note the containment directions: the intent and the keywords
are tested as substrings OF the key. -/
def fb_matches (qi : QueryInfo) (key : String) : Bool :=
  strIn key (strLower qi.original_query) || strIn qi.intent key ||
    qi.keywords.any (fun word => strIn word key)

/-- Build the article dict appended for a matching fallback entry
(fixed relevance 3). -/
def fb_article (e : FbEntry) : Article :=
  { title := e.title, link := e.link, description := e.description,
    source := e.source, relevance := 3 }

/-- The generic no-match article of `get_fallback_results`
(lines 1335-1342), fixed relevance 2. -/
def generic_space_article : Article :=
  { title := "Space Exploration",
    description := "Space exploration involves the discovery and exploration of celestial structures in outer space by means of continuously evolving space technology. NASA, ESA, and other space agencies lead missions to study planets, moons, asteroids, and distant galaxies.",
    link := "https://www.nasa.gov/",
    source := "Static Knowledge",
    relevance := 2 }

/-- `get_fallback_results` (lines 1270-1344): one relevance-3 article
per matching `fallback_data` key; if none matched, the single generic
relevance-2 article. -/
def get_fallback_results (qi : QueryInfo) : List Article :=
  if (fallback_data.filter (fun p => fb_matches qi p.1)).map (fun p => fb_article p.2) = []
  then [generic_space_article]
  else (fallback_data.filter (fun p => fb_matches qi p.1)).map (fun p => fb_article p.2)

/-! ### Aggregation (`get_space_info`, lines 1155-1268) -/

/-- The outcome of calling one scraper method on a query: each scraper
does network I/O, so it is abstracted by its name; `Except.error`
stands for the call raising (which line 1208 catches per scraper). -/
abbrev ScraperEnv := String → QueryInfo → Except Unit (List Article)

/-- The `scrapers` list literal of lines 1167-1189, as (name,
condition) pairs.  The two homepage-style conditions read
`len(all_results)` at the moment the list literal is evaluated:
`get_space_info` passes the accumulator as it stands then, namely the
empty list. -/
def build_scrapers (qi : QueryInfo) (all_results : List Article) : List (String × Bool) := [
  ("Wikipedia", true),
  ("Google", true),
  ("NASA", true),
  ("Space.com", true),
  ("NASA Science", ["solar", "galaxy", "universe", "asteroid"].contains qi.intent),
  ("Space Facts", ["solar", "mars", "moon", "asteroid"].contains qi.intent),
  ("USGS Astrogeology", ["mars", "moon", "asteroid"].contains qi.intent),
  ("SpaceX", ["spacex", "launch", "rocket"].contains qi.intent),
  ("NASA Homepage", decide (all_results.length < 3)),
  ("Universe Today", decide (all_results.length < 5))]

/-- State built by the scraper loop of lines 1196-1209: the scrapers
attempted (condition held), the per-source results of the calls that
returned (`source_results`, insertion order), and the concatenated
`all_results`. -/
structure ScrapeAcc where
  attempted : List String
  source_results : List (String × List Article)
  all_results : List Article
  deriving Repr

/-- The scraper loop (lines 1196-1209): run each scraper whose
condition holds; a call that raises contributes nothing and is not
recorded in `source_results`. -/
def runScrapers (env : ScraperEnv) (qi : QueryInfo) : List (String × Bool) → ScrapeAcc
  | [] => ⟨[], [], []⟩
  | spec :: rest =>
    let acc := runScrapers env qi rest
    if spec.2 then
      match env spec.1 qi with
      | Except.ok results =>
        ⟨spec.1 :: acc.attempted, (spec.1, results) :: acc.source_results,
         results ++ acc.all_results⟩
      | Except.error _ =>
        ⟨spec.1 :: acc.attempted, acc.source_results, acc.all_results⟩
    else acc

/-- The descending-relevance ordering used by
`sorted(all_results, key=lambda x: x['relevance'], reverse=True)`. -/
def relDescP : Article → Article → Prop := fun a b => b.relevance ≤ a.relevance

instance : DecidableRel relDescP :=
  fun a b => inferInstanceAs (Decidable (b.relevance ≤ a.relevance))

instance : IsTotal Article relDescP :=
  ⟨fun a b => le_total b.relevance a.relevance⟩

instance : IsTrans Article relDescP :=
  ⟨fun _ _ _ h1 h2 => le_trans h2 h1⟩

/-- Python stable sort descending by relevance.  `List.insertionSort
relDescP` inserts each element before the first one of relevance less
than or equal to its own while scanning from the original head, which
is exactly the stable descending order `sorted(..., reverse=True)`
produces. -/
def sortByRelevance (l : List Article) : List Article :=
  List.insertionSort relDescP l

/-- The dedup loop of lines 1222-1228: keep an article when its exact
title has not been seen yet (`seen_titles` is the set of titles kept
so far). -/
def dedupTitles (seen : List String) : List Article → List Article
  | [] => []
  | a :: rest =>
    if seen.contains a.title then dedupTitles seen rest
    else a :: dedupTitles (a.title :: seen) rest

/-- Lines 1211-1219: when the scraper loop gathered nothing, extend
with the fallback knowledge base and record it as the pseudo-source
`"Static Knowledge"` (only when non-empty, mirroring
`if fallback_results:`).  Returns the updated (source_results,
all_results). -/
def post_fallback (qi : QueryInfo) (acc : ScrapeAcc) :
    List (String × List Article) × List Article :=
  if acc.all_results = [] then
    (if get_fallback_results qi = [] then acc.source_results
     else acc.source_results ++ [("Static Knowledge", get_fallback_results qi)],
     acc.all_results ++ get_fallback_results qi)
  else (acc.source_results, acc.all_results)

/-- Lines 1221-1249: sort by relevance descending, dedup by exact
title, build `sources_info`, truncate to the top 10 and report the
pre-truncation unique count as `total_found`. -/
def assemble (qi : QueryInfo) (source_results : List (String × List Article))
    (all_results : List Article) : Response :=
  let unique_results := dedupTitles [] (sortByRelevance all_results)
  { query_info := qi,
    results := unique_results.take 10,
    total_found := unique_results.length,
    sources_info := some
      { sources_queried := source_results.map (fun p => p.1),
        sources_with_results := (source_results.filter (fun p => !p.2.isEmpty)).map (fun p => p.1),
        result_counts := (source_results.filter (fun p => !p.2.isEmpty)).map
          (fun p => (p.1, p.2.length)) } }

/-- The successful body of `get_space_info` (lines 1159-1249), given
the analyzed query.  Besides the response it exposes the list of
attempted scrapers and the gathered (post-fallback) article pool, for
stating properties about them. -/
structure CoreOut where
  response : Response
  attempted : List String
  gathered : List Article

/-- The `try` body of `get_space_info`: build the scrapers list (the
homepage gating conditions see the accumulator as it is at that point,
the empty list), run the loop, fall back if empty, then sort, dedup
and assemble. -/
def get_space_info_core (qi : QueryInfo) (env : ScraperEnv) : CoreOut :=
  let acc := runScrapers env qi (build_scrapers qi [])
  let sr_all := post_fallback qi acc
  { response := assemble qi sr_all.1 sr_all.2,
    attempted := acc.attempted,
    gathered := sr_all.2 }

/-- The synthetic article of the error path (lines 1260-1266). -/
def system_article : Article :=
  { title := "Cosmic Explorer Information",
    description := "We\x27re having trouble processing your query. Our team is working on it. In the meantime, try one of our example queries!",
    source := "System",
    link := "#",
    relevance := 1 }

/-- The minimal degraded response of the `except` branch (lines
1250-1268).  The Python dict literal there has no `sources_info`
key, hence `sources_info := none`. -/
def error_response (query : String) : Response :=
  { query_info :=
      { original_query := query,
        processed_query := query,
        intent := "general",
        keywords := pySplitWs (strLower query) },
    results := [system_article],
    total_found := 1,
    sources_info := none }

/-- `get_space_info` (lines 1155-1268).  The `nlp` argument is the
outcome of the `process_nlp` call, the fallible step of the `try`
body before scraping: `Except.error` takes the `except` branch. -/
def get_space_info (query : String) (nlp : Except Unit QueryInfo) (env : ScraperEnv) :
    Response :=
  match nlp with
  | Except.ok query_info => (get_space_info_core query_info env).response
  | Except.error _ => error_response query

/-! ### The HTTP search handler (`search`, api.py lines 34-54) -/

/-- What the Flask handler returns: an error JSON with an HTTP status,
or the scraper response. -/
inductive ApiResult where
  | err (message : String) (status : Nat)
  | ok (body : Response)
  deriving Repr, DecidableEq

/-- `search` (api.py lines 34-54) paired with the number of scraper
invocations it caused: reject an empty/whitespace-only query with a
400 before touching the scraper, otherwise delegate to
`get_space_info`. -/
def api_search (query : String) (nlp : Except Unit QueryInfo) (env : ScraperEnv) :
    ApiResult × Nat :=
  if pyStripIsEmpty query then (ApiResult.err "Please provide a query" 400, 0)
  else
    match nlp with
    | Except.ok qi =>
      let out := get_space_info_core qi env
      (ApiResult.ok out.response, out.attempted.length)
    | Except.error _ => (ApiResult.ok (error_response query), 0)

/-! ### Definitions taken from the specification text, for comparison
with the code -/

/-- Modelled from the spec: the fallback matching rule as the
specification words it - a key matches if it appears as a substring of
the raw query, or equals the classified intent, or any of the key's
constituent words appears in the keyword list. -/
def claimed_fb_matches (qi : QueryInfo) (key : String) : Bool :=
  strIn key qi.original_query || key == qi.intent ||
    (pySplitWs key).any (fun word => qi.keywords.contains word)

/-- Modelled from the spec: relevance as the claim words it - the
case-insensitive substring count of the keywords in the text. -/
def claimed_ci_relevance (text : String) (keywords : List String) : Nat :=
  (keywords.filter (fun k => strIn (strLower k) (strLower text))).length

/-! ### Concrete inputs used by witnesses and counterexamples -/

/-- A scraper environment in which every source returns no articles. -/
def env_empty : ScraperEnv := fun _ _ => Except.ok []

/-- NLP oracles for concrete runs: whitespace tokenizer, identity
lemmatizer, no stop words (a test double for the NLTK collaborators). -/
def nlp_env0 : NlpEnv :=
  { tokenize := pySplitWs, lemmatize := id, is_stop := fun _ => false }

/-- An analyzed query for the raw query `"pace"` (whitespace
tokenization, identity lemmatization): one keyword, general intent. -/
def qi_pace : QueryInfo :=
  { processed_query := "pace", original_query := "pace",
    intent := "general", keywords := ["pace"] }

/-- An analyzed query for `"mars rover"`: intent `"mars"`. -/
def qi_mars : QueryInfo :=
  { processed_query := "mars rover", original_query := "mars rover",
    intent := "mars", keywords := ["mars", "rover"] }

/-- An analyzed query used by the duplicate-title scenario. -/
def qi_jwst : QueryInfo :=
  { processed_query := "james webb", original_query := "James Webb Space Telescope",
    intent := "hubble", keywords := ["james", "webb"] }

/-- A relevance-7 article titled "James Webb Space Telescope". -/
def jwst7 : Article :=
  { title := "James Webb Space Telescope", link := "https://en.wikipedia.org/wiki/JWST",
    description := "from Wikipedia", source := "Wikipedia", relevance := 7 }

/-- A relevance-4 article with the same title. -/
def jwst4 : Article :=
  { title := "James Webb Space Telescope", link := "https://example.org/jwst",
    description := "from Google", source := "Google (example.org)", relevance := 4 }

/-- A scraper environment in which Wikipedia and Google each return
one article with the same title and different relevances. -/
def env_jwst : ScraperEnv := fun name _ =>
  if name = "Wikipedia" then Except.ok [jwst7]
  else if name = "Google" then Except.ok [jwst4]
  else Except.ok []

set_option maxRecDepth 8000

/-! ### Helper lemmas: relevance scoring -/

/-- The scoring fold of `calculate_relevance`, with a running score. -/
theorem calc_rel_fold (t : String) (kws : List String) (n : Nat) :
    kws.foldl (fun score keyword => if strIn keyword t then score + 1 else score) n
      = n + (kws.filter (fun k => strIn k t)).length := by
  induction kws generalizing n with
  | nil => simp
  | cons k rest ih =>
    by_cases h : strIn k t
    · simp only [List.foldl_cons, List.filter_cons, h, if_true, ih, List.length_cons]
      omega
    · simp only [List.foldl_cons, List.filter_cons, h, if_false, ih]
      simp [h]

/-- `calculate_relevance` counts (with multiplicity) the keywords that
occur, exactly as given, in the lowercased text. -/
theorem calc_rel_eq_filter (text : String) (keywords : List String) :
    calculate_relevance text keywords
      = (keywords.filter (fun k => strIn k (strLower text))).length := by
  have h := calc_rel_fold (strLower text) keywords 0
  simpa [calculate_relevance] using h

/-- A non-empty string is never a substring of the empty string. -/
theorem strIn_empty_of_ne (k : String) (h : k ≠ "") : strIn k "" = false := by
  cases hk : k.data with
  | nil =>
    exfalso
    apply h
    cases k with
    | mk data => cases hk; rfl
  | cons c cs => simp [strIn, listContains, listIsPref, hk]

/-! ### Helper lemmas: deduplication and sorting -/

/-- The dedup loop keeps a subsequence of its input. -/
theorem dedupTitles_sublist (l : List Article) :
    ∀ seen, (dedupTitles seen l).Sublist l := by
  induction l with
  | nil => intro seen; simp [dedupTitles]
  | cons x t ih =>
    intro seen
    by_cases h : seen.contains x.title
    · simp only [dedupTitles, h, if_true]
      exact (ih seen).trans (List.sublist_cons_self x t)
    · simp only [dedupTitles, h, if_false]
      exact List.Sublist.cons₂ x (ih (x.title :: seen))

/-- An article kept by the dedup loop has a title not yet seen. -/
theorem dedupTitles_not_seen (l : List Article) :
    ∀ seen a, a ∈ dedupTitles seen l → seen.contains a.title = false := by
  induction l with
  | nil => intro seen a ha; simp [dedupTitles] at ha
  | cons x t ih =>
    intro seen a ha
    by_cases h : seen.contains x.title
    · simp only [dedupTitles, h, if_true] at ha
      exact ih seen a ha
    · simp only [dedupTitles, h, if_false] at ha
      rcases List.mem_cons.mp ha with rfl | ha2
      · simpa using h
      · have h2 := ih (x.title :: seen) a ha2
        simp only [List.contains_cons, Bool.or_eq_false_iff] at h2
        exact h2.2

/-- No two articles kept by the dedup loop share a title. -/
theorem dedupTitles_pairwise_ne (l : List Article) :
    ∀ seen, (dedupTitles seen l).Pairwise (fun a b => a.title ≠ b.title) := by
  induction l with
  | nil => intro seen; simp [dedupTitles]
  | cons x t ih =>
    intro seen
    by_cases h : seen.contains x.title
    · simpa only [dedupTitles, h, if_true] using ih seen
    · simp only [dedupTitles, h, if_false]
      refine List.pairwise_cons.mpr ⟨?_, ih (x.title :: seen)⟩
      intro b hb he
      have h2 := dedupTitles_not_seen t (x.title :: seen) b hb
      simp only [List.contains_cons, Bool.or_eq_false_iff] at h2
      have h3 : (b.title == x.title) = true := beq_iff_eq.mpr he.symm
      rw [h3] at h2
      exact absurd h2.1 (by simp)

/-- In a relevance-descending list, the article the dedup loop keeps
for a title has relevance at least that of every article in the list
carrying the same title. -/
theorem dedupTitles_max (l : List Article) :
    ∀ seen a b, l.Pairwise relDescP → a ∈ dedupTitles seen l → b ∈ l →
      b.title = a.title → b.relevance ≤ a.relevance := by
  induction l with
  | nil => intro seen a b _ _ hb; simp at hb
  | cons x t ih =>
    intro seen a b hp ha hb htit
    obtain ⟨hx, ht⟩ := List.pairwise_cons.mp hp
    by_cases h : seen.contains x.title
    · simp only [dedupTitles, h, if_true] at ha
      rcases List.mem_cons.mp hb with rfl | hb2
      · have hns := dedupTitles_not_seen t seen a ha
        rw [← htit] at hns
        rw [h] at hns
        exact absurd hns (by simp)
      · exact ih seen a b ht ha hb2 htit
    · simp only [dedupTitles, h, if_false] at ha
      rcases List.mem_cons.mp ha with rfl | ha2
      · rcases List.mem_cons.mp hb with rfl | hb2
        · exact le_refl _
        · exact hx b hb2
      · rcases List.mem_cons.mp hb with rfl | hb2
        · have hns := dedupTitles_not_seen t (b.title :: seen) a ha2
          rw [← htit] at hns
          simp at hns
        · exact ih (x.title :: seen) a b ht ha2 hb2 htit

/-- Dedup of a non-empty list (with nothing seen yet) is non-empty:
the head is always kept. -/
theorem dedupTitles_nil_ne (l : List Article) (h : l ≠ []) :
    dedupTitles [] l ≠ [] := by
  cases l with
  | nil => exact absurd rfl h
  | cons x t => simp [dedupTitles]

/-- The stable descending sort is sorted for `relDescP`. -/
theorem sortByRelevance_pairwise (l : List Article) :
    (sortByRelevance l).Pairwise relDescP :=
  List.sorted_insertionSort relDescP l

/-- The stable descending sort is a permutation of its input. -/
theorem sortByRelevance_perm (l : List Article) :
    (sortByRelevance l).Perm l :=
  List.perm_insertionSort relDescP l

/-! ### Helper lemmas: the assembled response -/

theorem assemble_results_eq (qi : QueryInfo) (sr : List (String × List Article))
    (ar : List Article) :
    (assemble qi sr ar).results = (dedupTitles [] (sortByRelevance ar)).take 10 := rfl

theorem assemble_total_eq (qi : QueryInfo) (sr : List (String × List Article))
    (ar : List Article) :
    (assemble qi sr ar).total_found = (dedupTitles [] (sortByRelevance ar)).length := rfl

/-- The assembled result list has at most 10 entries. -/
theorem assemble_le_ten (qi : QueryInfo) (sr : List (String × List Article))
    (ar : List Article) : (assemble qi sr ar).results.length ≤ 10 := by
  rw [assemble_results_eq]
  exact List.length_take_le 10 _

/-- The assembled result list is no longer than `total_found`. -/
theorem assemble_le_total (qi : QueryInfo) (sr : List (String × List Article))
    (ar : List Article) :
    (assemble qi sr ar).results.length ≤ (assemble qi sr ar).total_found := by
  rw [assemble_results_eq, assemble_total_eq]
  rw [List.length_take]
  exact min_le_right _ _

/-- The assembled result list has pairwise distinct titles. -/
theorem assemble_title_unique (qi : QueryInfo) (sr : List (String × List Article))
    (ar : List Article) :
    (assemble qi sr ar).results.Pairwise (fun a b => a.title ≠ b.title) := by
  rw [assemble_results_eq]
  exact List.Pairwise.sublist (List.take_sublist 10 _) (dedupTitles_pairwise_ne _ [])

/-- The assembled result list is relevance-descending. -/
theorem assemble_sorted (qi : QueryInfo) (sr : List (String × List Article))
    (ar : List Article) :
    (assemble qi sr ar).results.Pairwise relDescP := by
  rw [assemble_results_eq]
  exact List.Pairwise.sublist ((List.take_sublist 10 _).trans (dedupTitles_sublist _ []))
    (sortByRelevance_pairwise ar)

/-- With a non-empty article pool, the assembled result list is
non-empty. -/
theorem assemble_ne_nil (qi : QueryInfo) (sr : List (String × List Article))
    (ar : List Article) (h : ar ≠ []) : 1 ≤ (assemble qi sr ar).results.length := by
  rw [assemble_results_eq]
  have hs : sortByRelevance ar ≠ [] := by
    intro he
    apply h
    have := (sortByRelevance_perm ar).length_eq
    rw [he] at this
    exact List.length_eq_zero.mp this.symm
  have hd : dedupTitles [] (sortByRelevance ar) ≠ [] := dedupTitles_nil_ne _ hs
  have hl : 0 < (dedupTitles [] (sortByRelevance ar)).length := List.length_pos.mpr hd
  rw [List.length_take]
  omega

/-- Every kept article dominates, in relevance, every article of the
pool that shares its exact title. -/
theorem assemble_max (qi : QueryInfo) (sr : List (String × List Article))
    (ar : List Article) :
    ∀ a ∈ (assemble qi sr ar).results, ∀ b ∈ ar, b.title = a.title →
      b.relevance ≤ a.relevance := by
  intro a ha b hb htit
  rw [assemble_results_eq] at ha
  have ha2 : a ∈ dedupTitles [] (sortByRelevance ar) := (List.take_sublist 10 _).subset ha
  have hb2 : b ∈ sortByRelevance ar := (sortByRelevance_perm ar).mem_iff.mpr hb
  exact dedupTitles_max (sortByRelevance ar) [] a b (sortByRelevance_pairwise ar) ha2 hb2 htit

/-! ### Helper lemmas: fallback and core -/

/-- The fallback knowledge base never returns an empty list. -/
theorem fallback_ne_nil (qi : QueryInfo) : get_fallback_results qi ≠ [] := by
  unfold get_fallback_results
  by_cases h : (fallback_data.filter (fun p => fb_matches qi p.1)).map (fun p => fb_article p.2) = []
  · simp [h]
  · simp only [h, if_false]
    exact h

/-- The post-fallback article pool is never empty. -/
theorem post_fallback_ne_nil (qi : QueryInfo) (acc : ScrapeAcc) :
    (post_fallback qi acc).2 ≠ [] := by
  unfold post_fallback
  by_cases h : acc.all_results = []
  · simp only [h, if_true, List.nil_append]
    exact fallback_ne_nil qi
  · simp only [h, if_false]
    exact h

/-- The response of the core pipeline is the response assembled from
the post-fallback state, and the exposed pool is that state's pool. -/
theorem core_response_eq (qi : QueryInfo) (env : ScraperEnv) :
    (get_space_info_core qi env).response
      = assemble qi (post_fallback qi (runScrapers env qi (build_scrapers qi []))).1
          (get_space_info_core qi env).gathered := rfl

/-- The gathered pool of the core pipeline is never empty. -/
theorem core_gathered_ne_nil (qi : QueryInfo) (env : ScraperEnv) :
    (get_space_info_core qi env).gathered ≠ [] :=
  post_fallback_ne_nil qi (runScrapers env qi (build_scrapers qi []))

/-- A scraper whose condition holds is attempted by the loop. -/
theorem mem_attempted_of_cond (env : ScraperEnv) (qi : QueryInfo)
    (specs : List (String × Bool)) (name : String) (h : (name, true) ∈ specs) :
    name ∈ (runScrapers env qi specs).attempted := by
  induction specs with
  | nil => simp at h
  | cons s rest ih =>
    obtain ⟨n, c⟩ := s
    rcases List.mem_cons.mp h with heq | hmem
    · have h1 : n = name := (congrArg Prod.fst heq).symm
      have h2 : c = true := (congrArg Prod.snd heq).symm
      subst h1; subst h2
      cases henv : env n qi <;> simp [runScrapers, henv]
    · by_cases hc : c = true
      · subst hc
        cases henv : env n qi <;>
          simp only [runScrapers, henv, if_true] <;>
          exact List.mem_cons_of_mem n (ih hmem)
      · have hc2 : c = false := by
          cases c
          · rfl
          · exact absurd rfl hc
        subst hc2
        simp only [runScrapers, Bool.false_eq_true, if_false]
        exact ih hmem

/-! ### Helper lemma: the intent loop is a first-match search -/

/-- The `break`-on-first-match loop equals `List.find?` over the
category table. -/
theorem intentLoop_eq_find (table : List (String × List String)) (lemm : List String) :
    intentLoop table lemm
      = match table.find? (fun p => p.2.any (fun k => lemm.contains k)) with
        | some p => p.1
        | none => "general" := by
  induction table with
  | nil => rfl
  | cons p rest ih =>
    obtain ⟨cat, kws⟩ := p
    have hstep : intentLoop ((cat, kws) :: rest) lemm
        = if kws.any (fun k => lemm.contains k) then cat else intentLoop rest lemm := rfl
    by_cases h : kws.any (fun k => lemm.contains k) = true
    · rw [List.find?_cons_of_pos rest (by exact h)]
      rw [hstep, if_pos h]
    · rw [List.find?_cons_of_neg rest (by exact h)]
      rw [hstep, if_neg h, ih]

/-! ### The claims -/

/-- Claim C1 (confirmed): every response of `get_space_info` satisfies
the aggregate invariants - at most 10 results, at least one result, no
two results with the same (case-sensitive) title, and `total_found` at
least the number of results. -/
theorem C1_aggregate_invariants (query : String) (nlp : Except Unit QueryInfo)
    (env : ScraperEnv) :
    (get_space_info query nlp env).results.length ≤ 10 ∧
    1 ≤ (get_space_info query nlp env).results.length ∧
    (get_space_info query nlp env).results.Pairwise (fun a b => a.title ≠ b.title) ∧
    (get_space_info query nlp env).results.length
      ≤ (get_space_info query nlp env).total_found := by
  cases nlp with
  | ok qi =>
    rw [show get_space_info query (Except.ok qi) env
          = assemble qi (post_fallback qi (runScrapers env qi (build_scrapers qi []))).1
              (get_space_info_core qi env).gathered from rfl]
    exact ⟨assemble_le_ten _ _ _,
           assemble_ne_nil _ _ _ (core_gathered_ne_nil qi env),
           assemble_title_unique _ _ _,
           assemble_le_total _ _ _⟩
  | error e =>
    refine ⟨?_, ?_, ?_, ?_⟩
    · show List.length [system_article] ≤ 10
      decide
    · show 1 ≤ List.length [system_article]
      decide
    · exact List.pairwise_singleton _ _
    · show List.length [system_article] ≤ 1
      decide

/-- Claim C2 (confirmed): the results of `get_space_info` are in
non-increasing relevance order, and every returned article has
relevance at least that of every gathered article sharing its exact
title - so among duplicated titles, a maximum-relevance occurrence
(the first one in the relevance-descending iteration) is the one
retained. -/
theorem C2_sorted_dedup_max (query : String) (nlp : Except Unit QueryInfo)
    (env : ScraperEnv) :
    (get_space_info query nlp env).results.Pairwise relDescP ∧
    (∀ qi, nlp = Except.ok qi →
      ∀ a ∈ (get_space_info query nlp env).results,
        ∀ b ∈ (get_space_info_core qi env).gathered,
          b.title = a.title → b.relevance ≤ a.relevance) := by
  constructor
  · cases nlp with
    | ok qi =>
      rw [show get_space_info query (Except.ok qi) env
            = assemble qi (post_fallback qi (runScrapers env qi (build_scrapers qi []))).1
                (get_space_info_core qi env).gathered from rfl]
      exact assemble_sorted _ _ _
    | error e =>
      exact List.pairwise_singleton _ _
  · rintro qi rfl a ha b hb htit
    rw [show get_space_info query (Except.ok qi) env
          = assemble qi (post_fallback qi (runScrapers env qi (build_scrapers qi []))).1
              (get_space_info_core qi env).gathered from rfl] at ha
    exact assemble_max _ _ _ a ha b hb htit

/-- Claim C2 witness: with Wikipedia and Google each contributing an
article titled "James Webb Space Telescope" (relevances 7 and 4), the
retained article is the relevance-7 one and it dominates the
relevance-4 duplicate. -/
theorem C2_witness :
    jwst7 ∈ (get_space_info "James Webb Space Telescope" (Except.ok qi_jwst) env_jwst).results ∧
    jwst4 ∈ (get_space_info_core qi_jwst env_jwst).gathered ∧
    jwst4.relevance ≤ jwst7.relevance :=
  ⟨by decide, by decide,
   (C2_sorted_dedup_max "James Webb Space Telescope" (Except.ok qi_jwst) env_jwst).2
     qi_jwst rfl jwst7 (by decide) jwst4 (by decide) rfl⟩

/-- Claim C3 counterexample: the degraded error-path response of
`get_space_info` (lines 1253-1268) carries no `sources_info` key
(modelled as `none`), so it is not a JSON object with exactly the four
fields `query_info`, `results`, `total_found`, `sources_info` that the
claim asserts for every returned response. -/
theorem C3_counterexample :
    (get_space_info "boom" (Except.error ()) env_empty).sources_info = none := rfl

/-- Claim C3 (corrected): `get_space_info` is total; on failure of the
analysis step it returns the degraded response with exactly one
`"System"`-sourced article and `total_found = 1`, but that response
omits the `sources_info` field; only responses of the successful path
carry all four fields. -/
theorem C3_degraded_response (query : String) (nlp : Except Unit QueryInfo)
    (env : ScraperEnv) :
    ((∃ e, nlp = Except.error e) →
      (get_space_info query nlp env).results = [system_article] ∧
      system_article.source = "System" ∧
      (get_space_info query nlp env).total_found = 1 ∧
      (get_space_info query nlp env).sources_info = none) ∧
    (∀ qi, nlp = Except.ok qi →
      (get_space_info query nlp env).sources_info.isSome = true) := by
  constructor
  · rintro ⟨e, rfl⟩
    exact ⟨rfl, rfl, rfl, rfl⟩
  · rintro qi rfl
    rfl

/-- Claim C3 witness: a concrete failed analysis yields the degraded
single-article response without `sources_info`. -/
theorem C3_witness :
    (get_space_info "q fail" (Except.error ()) env_empty).results = [system_article] ∧
    (get_space_info "q fail" (Except.error ()) env_empty).total_found = 1 ∧
    (get_space_info "q fail" (Except.error ()) env_empty).sources_info = none := by
  obtain ⟨h1, _, h3, h4⟩ :=
    (C3_degraded_response "q fail" (Except.error ()) env_empty).1 ⟨(), rfl⟩
  exact ⟨h1, h3, h4⟩

/-- Claim C4 counterexample: the core entry point `get_space_info`
performs no emptiness validation - on the empty query (analysis
succeeding with no keywords and general intent) it attempts six
adapter fetches, not zero. -/
theorem C4_counterexample :
    pyStripIsEmpty "" = true ∧
    (get_space_info_core (process_nlp nlp_env0 "") env_empty).attempted.length = 6 :=
  ⟨rfl, by decide⟩

/-- Claim C4 (corrected): the empty/whitespace rejection lives in the
HTTP layer's `search` handler (api.py lines 39-41), not in
`get_space_info`: for every empty or whitespace-only query the handler
returns the 400 validation error and causes zero adapter calls. -/
theorem C4_http_validation (query : String) (nlp : Except Unit QueryInfo)
    (env : ScraperEnv) (h : pyStripIsEmpty query = true) :
    api_search query nlp env = (ApiResult.err "Please provide a query" 400, 0) := by
  simp [api_search, h]

/-- Claim C4 witness: the whitespace-only query "   " is rejected with
the 400 error and zero adapter calls. -/
theorem C4_witness :
    pyStripIsEmpty "   " = true ∧
    api_search "   " (Except.error ()) env_empty
      = (ApiResult.err "Please provide a query" 400, 0) :=
  ⟨by decide, C4_http_validation "   " (Except.error ()) env_empty (by decide)⟩

/-- Claim C5 counterexample: for the analyzed query "pace" (keywords
`["pace"]`, intent `"general"`) no fallback key matches under the
claim's rule (key substring of the raw query, key equals the intent,
or a key word present in the keyword list), yet the code returns the
SpaceX entry, not the generic "Space Exploration" article - because
line 1325 tests each KEYWORD as a substring OF the key, and "pace"
occurs inside "spacex". -/
theorem C5_counterexample :
    (fallback_data.all (fun p => !claimed_fb_matches qi_pace p.1)) = true ∧
    (get_fallback_results qi_pace).map (fun a => a.title) = ["SpaceX"] ∧
    get_fallback_results qi_pace ≠ [generic_space_article] :=
  ⟨by decide, by decide, by decide⟩

/-- Claim C5 (corrected): `get_fallback_results` returns one
relevance-3 article per key matching the CODE's rule - the key is a
substring of the lowercased raw query, or the intent is a substring of
the key, or some query keyword is a substring of the key - and the
single generic relevance-2 "Space Exploration" article when no key
matches; the result is never empty. -/
theorem C5_fallback_characterization (qi : QueryInfo) :
    get_fallback_results qi ≠ [] ∧
    ((fallback_data.filter (fun p => fb_matches qi p.1)) ≠ [] →
      get_fallback_results qi
        = (fallback_data.filter (fun p => fb_matches qi p.1)).map (fun p => fb_article p.2) ∧
      ∀ a ∈ get_fallback_results qi, a.relevance = 3) ∧
    ((fallback_data.filter (fun p => fb_matches qi p.1)) = [] →
      get_fallback_results qi = [generic_space_article] ∧
      generic_space_article.relevance = 2) := by
  refine ⟨fallback_ne_nil qi, ?_, ?_⟩
  · intro h
    have hm : (fallback_data.filter (fun p => fb_matches qi p.1)).map
        (fun p => fb_article p.2) ≠ [] := by
      simpa using h
    have he : get_fallback_results qi
        = (fallback_data.filter (fun p => fb_matches qi p.1)).map (fun p => fb_article p.2) := by
      unfold get_fallback_results
      simp [hm]
    refine ⟨he, ?_⟩
    intro a ha
    rw [he] at ha
    obtain ⟨p, hp, rfl⟩ := List.mem_map.mp ha
    rfl
  · intro h
    constructor
    · unfold get_fallback_results
      simp [h]
    · rfl

/-- Claim C5 witness: for the analyzed query "mars rover" the mars key
matches and the returned list is exactly the mapped match list. -/
theorem C5_witness :
    get_fallback_results qi_mars ≠ [] ∧
    get_fallback_results qi_mars
      = (fallback_data.filter (fun p => fb_matches qi_mars p.1)).map (fun p => fb_article p.2) :=
  ⟨(C5_fallback_characterization qi_mars).1,
   ((C5_fallback_characterization qi_mars).2.1 (by decide)).1⟩

/-- Claim C6 (confirmed): `process_nlp` assigns as intent the first
category of the fixed table whose trigger set meets the processed
keyword list (`List.find?` over `space_keywords`), `"general"` when
none does, and it is deterministic: equal raw queries (under the same
external NLP collaborators) give equal analysis results. -/
theorem C6_intent_first_match (env : NlpEnv) (q q2 : String) :
    ((process_nlp env q).intent =
      match space_keywords.find?
          (fun p => p.2.any (fun k => (process_nlp env q).keywords.contains k)) with
      | some p => p.1
      | none => "general") ∧
    (q = q2 → process_nlp env q = process_nlp env q2) := by
  constructor
  · exact intentLoop_eq_find space_keywords _
  · intro h
    rw [h]

/-- Claim C6 witness: the query "mars rover" analyzed twice gives the
same result, and its intent evaluates to "mars". -/
theorem C6_witness :
    process_nlp nlp_env0 "mars rover" = process_nlp nlp_env0 "mars rover" ∧
    (process_nlp nlp_env0 "mars rover").intent = "mars" :=
  ⟨(C6_intent_first_match nlp_env0 "mars rover" "mars rover").2 rfl, by decide⟩

/-- Claim C7 counterexample: `calculate_relevance` is not
case-insensitive in the keyword - it lowercases only the text - so the
keyword "Mars" scores 0 against the text "Mars", while the claimed
case-insensitive count is 1. -/
theorem C7_counterexample :
    calculate_relevance "Mars" ["Mars"] = 0 ∧
    claimed_ci_relevance "Mars" ["Mars"] = 1 :=
  ⟨by decide, by decide⟩

/-- Claim C7 (corrected): `calculate_relevance` returns the number of
keywords (with multiplicity, +1 each) that occur, exactly as given, as
substrings of the LOWERCASED text; it is a pure function of its
arguments. Keywords containing uppercase letters never match. -/
theorem C7_keyword_count (text : String) (keywords : List String) :
    calculate_relevance text keywords
      = (keywords.filter (fun k => strIn k (strLower text))).length :=
  calc_rel_eq_filter text keywords

/-- Claim C8 counterexample: the empty-string keyword is a substring
of every text, including the empty text, so
`calculate_relevance("", [""])` is 1, not 0. -/
theorem C8_counterexample : calculate_relevance "" [""] = 1 := by decide

/-- Claim C8 (corrected): `calculate_relevance text [] = 0` for every
text, and `calculate_relevance "" keywords = 0` for every keyword list
whose keywords are all non-empty (an empty-string keyword matches any
text). -/
theorem C8_zero_scores (text : String) (keywords : List String)
    (h : ∀ k ∈ keywords, k ≠ "") :
    calculate_relevance text [] = 0 ∧ calculate_relevance "" keywords = 0 := by
  constructor
  · rfl
  · rw [calc_rel_eq_filter]
    have hf : keywords.filter (fun k => strIn k (strLower "")) = [] := by
      rw [List.filter_eq_nil_iff]
      intro k hk
      have hs := strIn_empty_of_ne k (h k hk)
      have h0 : strLower "" = "" := rfl
      rw [h0, hs]
      simp
    rw [hf]
    rfl

/-- Claim C8 witness: a concrete instance of both zero cases. -/
theorem C8_witness :
    calculate_relevance "nebula" [] = 0 ∧ calculate_relevance "" ["mars"] = 0 :=
  C8_zero_scores "nebula" ["mars"] (by decide)

/-- Claim C9 (confirmed): the homepage-style gating conditions
(`len(all_results) < 3` for NASA Homepage, `< 5` for Universe Today)
are evaluated when the scrapers list literal is built, against the
accumulator as it stands then - the empty list - so both conditions
are `true` and both adapters are attempted for every query. -/
theorem C9_homepage_gates_always (qi : QueryInfo) (env : ScraperEnv) :
    ("NASA Homepage", true) ∈ build_scrapers qi [] ∧
    ("Universe Today", true) ∈ build_scrapers qi [] ∧
    "NASA Homepage" ∈ (get_space_info_core qi env).attempted ∧
    "Universe Today" ∈ (get_space_info_core qi env).attempted := by
  have h1 : ("NASA Homepage", true) ∈ build_scrapers qi [] := by
    unfold build_scrapers
    apply List.mem_cons_of_mem; apply List.mem_cons_of_mem; apply List.mem_cons_of_mem
    apply List.mem_cons_of_mem; apply List.mem_cons_of_mem; apply List.mem_cons_of_mem
    apply List.mem_cons_of_mem; apply List.mem_cons_of_mem
    exact List.mem_cons_self _ _
  have h2 : ("Universe Today", true) ∈ build_scrapers qi [] := by
    unfold build_scrapers
    apply List.mem_cons_of_mem; apply List.mem_cons_of_mem; apply List.mem_cons_of_mem
    apply List.mem_cons_of_mem; apply List.mem_cons_of_mem; apply List.mem_cons_of_mem
    apply List.mem_cons_of_mem; apply List.mem_cons_of_mem; apply List.mem_cons_of_mem
    exact List.mem_cons_self _ _
  exact ⟨h1, h2, mem_attempted_of_cond env qi _ _ h1, mem_attempted_of_cond env qi _ _ h2⟩

/-- Claim C10 (confirmed): the relevance score is between 0 and the
keyword count, and appending a keyword never decreases it. -/
theorem C10_relevance_bounds (text : String) (keywords : List String) (k : String) :
    0 ≤ calculate_relevance text keywords ∧
    calculate_relevance text keywords ≤ keywords.length ∧
    calculate_relevance text keywords ≤ calculate_relevance text (keywords ++ [k]) := by
  refine ⟨Nat.zero_le _, ?_, ?_⟩
  · rw [calc_rel_eq_filter]
    exact List.length_filter_le _ _
  · rw [calc_rel_eq_filter, calc_rel_eq_filter, List.filter_append, List.length_append]
    exact Nat.le_add_right _ _
